import Mathlib

/-!
Shallow embedding of `zc_common/email.py`.

The module glues three things together: a key namer (pure string
composition), a blob store (S3 uploads via boto), and an event publisher
(pika `basic_publish` of a ujson envelope).  `send_email` orchestrates them.

Modelling decisions, all driven by the Python source:
* Randomness and the environment are passed explicitly in an `Env` record:
  the `uuid.uuid4()` drawn inside `send_email` (`email_uuid`), the
  `uuid.uuid4()` drawn inside `emit_microservice_event` (`emit_task_id`),
  `date.today().isoformat()` (`today`), `int(time.time())` (`now`), the
  broker acknowledgment returned by `basic_publish` (`ack`), the AWS
  credentials read from settings, the initial bucket contents and the local
  filesystem contents.
* External effects are recorded as an ordered trace of `ExtCall` entries:
  bucket acquisition (`conn.get_bucket`, a network round trip), each actual
  S3 write (the upload helpers skip the write for falsy content), and the
  broker publish (standing for the connection, queue declaration and
  `basic_publish` sequence inside `emit_microservice_event`).
* Python dicts are modelled extensionally as association lists read through
  first-match lookup; `d.update(e)` therefore becomes `e ++ d`, which gives
  `e` priority on every key, exactly as the Python update does.
* The JSON envelope built by `emit_microservice_event` and serialised with
  `ujson.dumps` is modelled as a `Json` tree; `ujson.dumps` followed by a
  parse is the identity on that tree, so parsing a published envelope is
  modelled by reading fields of the tree.
* Python string truthiness is emptiness of a `String`; `None` for an
  optional string argument is also modelled by `""` where only truthiness
  matters, and by `Option String` where the value flows into the event.
* Logging calls are pure observations and are not modelled.
-/

/-- Python values admissible for the recipient keyword arguments
`to`/`cc`/`bcc`/`reply_to`: `None`, a string, a list of strings, or any
other object (kept abstract, remembering only its truthiness, which is all
`send_email` inspects before raising). -/
inductive PyVal where
  | none
  | str (s : String)
  | list (l : List String)
  | other (truthy : Bool)
deriving DecidableEq

/-- JSON trees, the image of `ujson.dumps`/parse on the envelope.  `jraw`
stands for the serialisation of an object the module treats as a black box
(headers, user id, resource type/id, a non-string non-list recipient). -/
inductive Json where
  | jnull
  | jstr (s : String)
  | jarr (items : List Json)
  | jobj (fields : List (String × Json))
  | jraw (truthy : Bool)

/-- The exceptions `send_email` and its helpers can raise.
`typeErrorNotList` is the `TypeError` whose Python message says the four
recipient keyword arguments should be of type list; `typeErrorAllEmpty` is
the `TypeError` whose message says they cannot all be empty;
`missingCredentials` is `MissingCredentialsError`; `emitEvent` is
`EmitEventException`. -/
inductive SendError where
  | missingCredentials
  | typeErrorNotList
  | typeErrorAllEmpty
  | emitEvent
deriving DecidableEq

/-- One observable external-service call, in program order. -/
inductive ExtCall where
  | acquireBucket
  | uploadString (key content : String)
  | uploadFile (key path : String)
  | publish
deriving DecidableEq

/-- Python `str.split(sep)` for a one-character separator, on the character
list: the empty string splits into one empty group (as in Python), and every
separator character opens a fresh group. -/
def pySplitAux (sep : Char) : List Char → List (List Char)
  | [] => [[]]
  | c :: cs =>
      match pySplitAux sep cs with
      | [] => [[]]
      | g :: gs => if c = sep then [] :: g :: gs else (c :: g) :: gs

/-- Python `s.split(sep)` for a one-character separator. -/
def pySplit (s : String) (sep : Char) : List String :=
  (pySplitAux sep s.data).map String.mk

/-- Joins character groups with the separator: the left inverse used for stating that `pySplitAux` really is splitting at the separator. -/
def joinChars (sep : Char) : List (List Char) → List Char
  | [] => []
  | [g] => g
  | g :: g2 :: gs => g ++ sep :: joinChars sep (g2 :: gs)

/-- Python truthiness of a recipient value. -/
def pyTruthy : PyVal → Bool
  | PyVal.none => false
  | PyVal.str s => s != ""
  | PyVal.list l => !l.isEmpty
  | PyVal.other b => b

/-- `isinstance(arg, list)`. -/
def isPyList : PyVal → Bool
  | PyVal.list _ => true
  | _ => false

/-- Lines 127-130: the field is split on commas when it is a string and
left alone otherwise, for each of the four recipient keyword arguments. -/
def normalizeRecipient : PyVal → PyVal
  | PyVal.str s => PyVal.list (pySplit s ',')
  | v => v

/-- The loop test of lines 131-134: `if arg and not isinstance(arg, list)`. -/
def badRecipient (v : PyVal) : Bool :=
  pyTruthy v && !isPyList v

/-- Some normalized recipient field triggers the list-type `TypeError`. -/
def anyBadRecipient («to» cc bcc reply_to : PyVal) : Bool :=
  badRecipient «to» || badRecipient cc || badRecipient bcc || badRecipient reply_to

/-- Line 136: `not any(...)` over the four normalized fields. -/
def allRecipientsFalsy («to» cc bcc reply_to : PyVal) : Bool :=
  !(pyTruthy «to» || pyTruthy cc || pyTruthy bcc || pyTruthy reply_to)

/-- `generate_s3_folder_name(email_uuid)`:
`"{}/{}_{}".format(email_date, email_timestamp, email_uuid)` with the date
and timestamp drawn from the environment. -/
def generate_s3_folder_name (today : String) (now : Nat) (email_uuid : String) : String :=
  today ++ "/" ++ toString now ++ "_" ++ email_uuid

/-- `generate_s3_content_key(s3_folder_name, content_type, content_name)`,
whose third Python parameter defaults empty:
composes `"{folder}/{type}"`, suffixed with `"_{name}"` when `content_name`
is truthy.  Callers relying on the Python default pass `""`. -/
def generate_s3_content_key (s3_folder_name content_type content_name : String) : String :=
  let content_key := s3_folder_name ++ "/" ++ content_type
  if content_name != "" then content_key ++ "_" ++ content_name else content_key

/-- The bucket: keys mapped onto stored string contents, most recent write
first. -/
def s3_get (bucket : List (String × String)) (key : String) : Option String :=
  bucket.lookup key

/-- `upload_string_to_s3(bucket, content_key, content)`: writes only when
`content` is truthy.  Returns the updated bucket and the S3 calls made. -/
def upload_string_to_s3 (bucket : List (String × String)) (content_key content : String) :
    List (String × String) × List ExtCall :=
  if content != "" then
    ((content_key, content) :: bucket, [ExtCall.uploadString content_key content])
  else (bucket, [])

/-- `upload_file_to_s3(bucket, content_key, filename)`: writes the bytes of
the file at `filename` (read from the modelled filesystem `fs`) only when
`filename` is truthy. -/
def upload_file_to_s3 (bucket : List (String × String)) (content_key filename : String)
    (fs : String → String) : List (String × String) × List ExtCall :=
  if filename != "" then
    ((content_key, fs filename) :: bucket, [ExtCall.uploadFile content_key filename])
  else (bucket, [])

/-- `emit_microservice_event(event_type, *args, **kwargs)` given the fresh
`task_id = str(uuid.uuid4())` and the broker acknowledgment.  Returns the
published envelope and the outcome: the acknowledgment when it is truthy,
`EmitEventException` otherwise.  The dict holding the fresh task id under
the `task_id` key, updated with `kwargs`, is the extensional dict
`kwargs ++ [("task_id", task_id)]`. -/
def emit_microservice_event (task_id : String) (ack : Bool) (event_type : String)
    (args : List Json) (kwargs : List (String × Json)) : Json × Except SendError Bool :=
  let keyword_args : List (String × Json) := kwargs ++ [("task_id", Json.jstr task_id)]
  let message : Json := Json.jobj [
    ("task", Json.jstr "microservice.event"),
    ("id", Json.jstr task_id),
    ("args", Json.jarr (Json.jstr event_type :: args)),
    ("kwargs", Json.jobj keyword_args)]
  (message, if ack then Except.ok ack else Except.error SendError.emitEvent)

/-- The `EMAIL_EVENT_TYPE` module constant. -/
def EMAIL_EVENT_TYPE : String := "send_email"

/-- The environment a single `send_email` call runs in: settings,
random draws, clock, filesystem, initial bucket, broker acknowledgment. -/
structure Env where
  aws_access_key_id : String
  aws_secret_access_key : String
  email_uuid : String
  emit_task_id : String
  today : String
  now : Nat
  ack : Bool
  bucket0 : List (String × String)
  fs : String → String

/-- The keyword arguments of `send_email`.  `html_body`, `plaintext_body`
keep only what the code inspects (truthiness and the uploaded text), so
`""` models both `None` and the empty string.  `attachments` is the list of
`(filename, content_type, content)` tuples; `files` the list of file paths. -/
structure SendEmailArgs where
  from_email : Option String
  «to» : PyVal
  cc : PyVal
  bcc : PyVal
  reply_to : PyVal
  subject : Option String
  plaintext_body : String
  html_body : String
  headers : Json
  files : List String
  attachments : List (String × String × String)
  user_id : Json
  resource_type : Json
  resource_id : Json

/-- All keyword arguments left at their Python default `None`. -/
def baseArgs : SendEmailArgs where
  from_email := Option.none
  «to» := PyVal.none
  cc := PyVal.none
  bcc := PyVal.none
  reply_to := PyVal.none
  subject := Option.none
  plaintext_body := ""
  html_body := ""
  headers := Json.jnull
  files := []
  attachments := []
  user_id := Json.jnull
  resource_type := Json.jnull
  resource_id := Json.jnull

/-- Threaded state of the upload phase: the bucket, the trace so far, and
the accumulating `attachments_keys`. -/
structure SendState where
  bucket : List (String × String)
  trace : List ExtCall
  keys : List String

/-- One iteration of the loop over `attachments` (lines 152-156): generate
the attachment key from the filename in the tuple, upload its content as
a string, append the key. -/
def attachStep (folder : String) (st : SendState) (att : String × String × String) : SendState :=
  let attachment_key := generate_s3_content_key folder "attachment" att.1
  let up := upload_string_to_s3 st.bucket attachment_key att.2.2
  { bucket := up.1, trace := st.trace ++ up.2, keys := st.keys ++ [attachment_key] }

/-- One iteration of the loop over `files` (lines 158-163): the filename is
`filepath.split('/')[-1]`, the key is generated from it, the file is
uploaded, the key appended. -/
def fileStep (fs : String → String) (folder : String) (st : SendState) (filepath : String) :
    SendState :=
  let filename := (pySplit filepath '/').getLastD ""
  let attachment_key := generate_s3_content_key folder "attachment" filename
  let up := upload_file_to_s3 st.bucket attachment_key filepath fs
  { bucket := up.1, trace := st.trace ++ up.2, keys := st.keys ++ [attachment_key] }

/-- JSON of an optional string field of the event payload. -/
def jsonOfOptStr : Option String → Json
  | Option.none => Json.jnull
  | Option.some s => Json.jstr s

/-- JSON of a normalized recipient field as it is placed in `event_data`. -/
def jsonOfRecipient : PyVal → Json
  | PyVal.none => Json.jnull
  | PyVal.str s => Json.jstr s
  | PyVal.list l => Json.jarr (l.map Json.jstr)
  | PyVal.other b => Json.jraw b

/-- Result of a `send_email` call: the external calls in order, the final
bucket, the published envelope when `basic_publish` was reached, and the
outcome (`send_email` itself returns `None` on success). -/
structure SendResult where
  trace : List ExtCall
  bucket : List (String × String)
  published : Option Json
  outcome : Except SendError Unit

/-- Lines 140-143 (and 145-148): `X_body_key = None; if X_body: X_body_key =
generate_s3_content_key(...); upload_string_to_s3(bucket, X_body_key,
X_body)`.  Returns the threaded state and the recorded key. -/
def bodyUpload (st : SendState) (key content : String) : SendState × Option String :=
  if content != "" then
    let up := upload_string_to_s3 st.bucket key content
    ({ bucket := up.1, trace := st.trace ++ up.2, keys := st.keys }, Option.some key)
  else (st, Option.none)

/-- The post-validation part of `send_email` (lines 140-187), taking the
already-normalized recipients: upload the HTML body and the plaintext body
when truthy, run the attachment and file loops, build `event_data` and call
`emit_microservice_event`. -/
def send_email_body (env : Env) (a : SendEmailArgs) («to» cc bcc reply_to : PyVal) : SendResult :=
  let s3_folder_name := generate_s3_folder_name env.today env.now env.email_uuid
  let st0 : SendState := { bucket := env.bucket0, trace := [ExtCall.acquireBucket], keys := [] }
  let h := bodyUpload st0 (generate_s3_content_key s3_folder_name "html" "") a.html_body
  let st1 := h.1
  let html_body_key := h.2
  let p := bodyUpload st1 (generate_s3_content_key s3_folder_name "plaintext" "") a.plaintext_body
  let st2 := p.1
  let plaintext_body_key := p.2
  let st3 := a.attachments.foldl (attachStep s3_folder_name) st2
  let st4 := a.files.foldl (fileStep env.fs s3_folder_name) st3
  let event_data : List (String × Json) := [
    ("from_email", jsonOfOptStr a.from_email),
    ("«to»", jsonOfRecipient «to»),
    ("cc", jsonOfRecipient cc),
    ("bcc", jsonOfRecipient bcc),
    ("reply_to", jsonOfRecipient reply_to),
    ("subject", jsonOfOptStr a.subject),
    ("plaintext_body_key", jsonOfOptStr plaintext_body_key),
    ("html_body_key", jsonOfOptStr html_body_key),
    ("attachments_keys", Json.jarr (st4.keys.map Json.jstr)),
    ("headers", a.headers),
    ("user_id", a.user_id),
    ("resource_type", a.resource_type),
    ("resource_id", a.resource_id),
    ("task_id", Json.jstr env.email_uuid)]
  let em := emit_microservice_event env.emit_task_id env.ack EMAIL_EVENT_TYPE [] event_data
  { trace := st4.trace ++ [ExtCall.publish], bucket := st4.bucket,
    published := Option.some em.1,
    outcome := match em.2 with
      | Except.ok _ => Except.ok ()
      | Except.error e => Except.error e }

/-- `send_email(...)`.  In source order: `get_s3_email_bucket()` first
(raising `MissingCredentialsError` before any network traffic when a
credential setting is falsy, and otherwise performing the `get_bucket`
round trip), then recipient normalization and the two validation checks,
then uploads and the publish. -/
def send_email (env : Env) (a : SendEmailArgs) : SendResult :=
  if env.aws_access_key_id == "" || env.aws_secret_access_key == "" then
    { trace := [], bucket := env.bucket0, published := Option.none,
      outcome := Except.error SendError.missingCredentials }
  else
    let «to» := normalizeRecipient a.«to»
    let cc := normalizeRecipient a.cc
    let bcc := normalizeRecipient a.bcc
    let reply_to := normalizeRecipient a.reply_to
    if anyBadRecipient «to» cc bcc reply_to then
      { trace := [ExtCall.acquireBucket], bucket := env.bucket0, published := Option.none,
        outcome := Except.error SendError.typeErrorNotList }
    else if allRecipientsFalsy «to» cc bcc reply_to then
      { trace := [ExtCall.acquireBucket], bucket := env.bucket0, published := Option.none,
        outcome := Except.error SendError.typeErrorAllEmpty }
    else
      send_email_body env a «to» cc bcc reply_to

/-- Both validation checks, bundled: some recipient field is truthy but not
a list, or all four are falsy, after normalization. -/
def recipientsInvalid (a : SendEmailArgs) : Bool :=
  anyBadRecipient (normalizeRecipient a.«to») (normalizeRecipient a.cc)
      (normalizeRecipient a.bcc) (normalizeRecipient a.reply_to)
    || allRecipientsFalsy (normalizeRecipient a.«to») (normalizeRecipient a.cc)
      (normalizeRecipient a.bcc) (normalizeRecipient a.reply_to)

/-- Field read of a JSON object. -/
def jlookup (j : Json) (k : String) : Option Json :=
  match j with
  | Json.jobj fields => fields.lookup k
  | _ => Option.none

/-- The string under a JSON leaf, when it is a string. -/
def jstrVal : Json → Option String
  | Json.jstr s => Option.some s
  | _ => Option.none

/-- Parsing the envelope: its top-level `id` string. -/
def envelopeIdStr (m : Json) : Option String :=
  (jlookup m "id").bind jstrVal

/-- Parsing the envelope: its `kwargs.task_id` string. -/
def envelopeTaskIdStr (m : Json) : Option String :=
  ((jlookup m "kwargs").bind (fun kw => jlookup kw "task_id")).bind jstrVal

/-- `kwargs.task_id` of the envelope a `send_email` call published, if any. -/
def publishedTaskId (r : SendResult) : Option String :=
  r.published.bind envelopeTaskIdStr

/-- Top-level `id` of the envelope a `send_email` call published, if any. -/
def publishedId (r : SendResult) : Option String :=
  r.published.bind envelopeIdStr

/-- `kwargs.attachments_keys` of the published envelope, if any. -/
def publishedAttachmentsKeys (r : SendResult) : Option Json :=
  r.published.bind (fun m => (jlookup m "kwargs").bind (fun kw => jlookup kw "attachments_keys"))

/-- The outcome is one of the two validation `TypeError`s. -/
def isTypeError : Except SendError Unit → Bool
  | Except.error SendError.typeErrorNotList => true
  | Except.error SendError.typeErrorAllEmpty => true
  | _ => false

/-- A fully concrete environment used for instantiating the theorems: both
credentials set, distinct uuids for the `send_email` draw and the publisher
draw, broker acknowledging. -/
def demoEnv : Env where
  aws_access_key_id := "AKIAEXAMPLE"
  aws_secret_access_key := "SECRETEXAMPLE"
  email_uuid := "11111111-1111-1111-1111-111111111111"
  emit_task_id := "22222222-2222-2222-2222-222222222222"
  today := "2026-10-12"
  now := 1760227200
  ack := true
  bucket0 := []
  fs := fun _ => "FILEBYTES"

/-- A well-formed call: one recipient, nothing else. -/
def argsTo : SendEmailArgs :=
  { baseArgs with «to» := PyVal.str "a@x.com" }

/-- A malformed call: the first recipient field is a truthy object that is neither a string nor
a list (for example a nonzero integer). -/
def argsBadTo : SendEmailArgs :=
  { baseArgs with «to» := PyVal.other true }

/-- A call with two content attachments and one file path. -/
def argsAttach : SendEmailArgs :=
  { baseArgs with
      «to» := PyVal.str "a@x.com"
      attachments := [("r.pdf", "application/pdf", "PDFDATA"),
                      ("e.png", "image/png", "PNGDATA")]
      files := ["/tmp/dir/f.txt"] }

/-- A call with one attachment whose content is falsy. -/
def argsEmptyAttachment : SendEmailArgs :=
  { baseArgs with
      «to» := PyVal.str "a@x.com"
      attachments := [("ghost.txt", "text/plain", "")] }

/-- When the credentials are set and validation passes, `send_email` runs
its post-validation body on the normalized recipients. -/
theorem send_email_eq_body (env : Env) (a : SendEmailArgs)
    (h1 : env.aws_access_key_id ≠ "") (h2 : env.aws_secret_access_key ≠ "")
    (hv : recipientsInvalid a = false) :
    send_email env a = send_email_body env a (normalizeRecipient a.«to»)
      (normalizeRecipient a.cc) (normalizeRecipient a.bcc) (normalizeRecipient a.reply_to) := by
  rw [recipientsInvalid, Bool.or_eq_false_iff] at hv
  unfold send_email
  simp [beq_eq_false_iff_ne.mpr h1, beq_eq_false_iff_ne.mpr h2, hv.1, hv.2]

/-- The attachment loop appends one key per tuple, in order, each generated
from that tuple. -/
theorem foldl_attachStep_keys (folder : String) (atts : List (String × String × String))
    (st : SendState) :
    (atts.foldl (attachStep folder) st).keys =
      st.keys ++ atts.map (fun t => generate_s3_content_key folder "attachment" t.1) := by
  induction atts generalizing st with
  | nil => simp
  | cons t ts ih => simp [List.foldl_cons, ih, attachStep]

/-- The file loop appends one key per path, in order, each generated from
the final path component. -/
theorem foldl_fileStep_keys (fs : String → String) (folder : String) (files : List String)
    (st : SendState) :
    (files.foldl (fileStep fs folder) st).keys =
      st.keys ++ files.map
        (fun p => generate_s3_content_key folder "attachment" ((pySplit p '/').getLastD "")) := by
  induction files generalizing st with
  | nil => simp
  | cons p ps ih => simp [List.foldl_cons, ih, fileStep]

/-- Body uploads never touch the accumulated attachment keys. -/
theorem bodyUpload_keys (st : SendState) (key content : String) :
    (bodyUpload st key content).1.keys = st.keys := by
  rw [bodyUpload]; split <;> rfl

/-- The envelope a `send_email` body publishes always carries, under
`kwargs.attachments_keys`, the content-attachment keys followed by the
file-path keys, in input order. -/
theorem send_email_body_attachments_keys (env : Env) (a : SendEmailArgs)
    («to» cc bcc reply_to : PyVal) :
    publishedAttachmentsKeys (send_email_body env a «to» cc bcc reply_to) =
      Option.some (Json.jarr
        (((a.attachments.map (fun t => generate_s3_content_key
              (generate_s3_folder_name env.today env.now env.email_uuid) "attachment" t.1)) ++
          (a.files.map (fun p => generate_s3_content_key
              (generate_s3_folder_name env.today env.now env.email_uuid) "attachment"
              ((pySplit p '/').getLastD "")))).map Json.jstr)) := by
  simp [send_email_body, publishedAttachmentsKeys, emit_microservice_event, jlookup,
        List.lookup, foldl_attachStep_keys, foldl_fileStep_keys, bodyUpload_keys]

/-- The comma splitter never returns an empty group list. -/
theorem pySplitAux_ne_nil (sep : Char) : ∀ l : List Char, pySplitAux sep l ≠ []
  | [] => by simp [pySplitAux]
  | c :: cs => by
      simp only [pySplitAux]
      cases h : pySplitAux sep cs with
      | nil => simp
      | cons g gs => by_cases hc : c = sep <;> simp [hc]

/-- Joining the split groups with the separator restores the input: the
splitter loses nothing and cuts exactly at separators. -/
theorem joinChars_pySplitAux (sep : Char) : ∀ l : List Char, joinChars sep (pySplitAux sep l) = l
  | [] => rfl
  | c :: cs => by
      have ih := joinChars_pySplitAux sep cs
      simp only [pySplitAux]
      cases h : pySplitAux sep cs with
      | nil => exact absurd h (pySplitAux_ne_nil sep cs)
      | cons g gs =>
          rw [h] at ih
          by_cases hc : c = sep
          · subst hc
            simp [joinChars, ih]
          · cases gs with
            | nil =>
                simp only [joinChars] at ih
                simp [hc, joinChars, ih]
            | cons g2 gs2 =>
                simp only [joinChars] at ih
                simp [hc, joinChars, ih]

/-- No group produced by the splitter contains the separator. -/
theorem pySplitAux_no_sep (sep : Char) :
    ∀ l : List Char, ∀ g ∈ pySplitAux sep l, sep ∉ g
  | [] => by simp [pySplitAux]
  | c :: cs => by
      have ih := pySplitAux_no_sep sep cs
      simp only [pySplitAux]
      cases h : pySplitAux sep cs with
      | nil => simp
      | cons g gs =>
          rw [h] at ih
          by_cases hc : c = sep
          · simp only [hc, if_pos rfl]
            intro g' hg'
            rcases List.mem_cons.mp hg' with h1 | h2
            · subst h1; simp
            · exact ih g' h2
          · simp only [if_neg hc]
            intro g' hg'
            rcases List.mem_cons.mp hg' with h1 | h2
            · subst h1
              intro hmem
              rcases List.mem_cons.mp hmem with h3 | h4
              · exact hc h3.symm
              · exact ih g (List.mem_cons_self g gs) h4
            · exact ih g' (List.mem_cons_of_mem g h2)

/-- C2 (amended): with credentials configured, a call whose recipient
fields fail validation (some truthy field not a list, or all four falsy
after normalization) raises one of the two validation type errors with no
upload and no publish — but only after the bucket-acquisition round trip,
which is the single entry in the trace; the bucket is untouched and no
envelope is published. -/
theorem send_email_validation_failure_frame (env : Env) (a : SendEmailArgs)
    (h1 : env.aws_access_key_id ≠ "") (h2 : env.aws_secret_access_key ≠ "")
    (hv : recipientsInvalid a = true) :
    (send_email env a).trace = [ExtCall.acquireBucket] ∧
    isTypeError (send_email env a).outcome = true ∧
    (send_email env a).bucket = env.bucket0 ∧
    (send_email env a).published = Option.none := by
  have h1b := beq_eq_false_iff_ne.mpr h1
  have h2b := beq_eq_false_iff_ne.mpr h2
  rw [recipientsInvalid] at hv
  unfold send_email
  cases hbad : anyBadRecipient (normalizeRecipient a.«to») (normalizeRecipient a.cc)
      (normalizeRecipient a.bcc) (normalizeRecipient a.reply_to) with
  | true => simp [h1b, h2b, hbad, isTypeError]
  | false =>
      rw [hbad] at hv
      simp only [Bool.false_or] at hv
      simp [h1b, h2b, hbad, hv, isTypeError]

/-- C2 (counterexample): a call with a malformed recipient raises the
validation type error, yet the trace is not empty — the object-store
bucket acquisition happens before validation, so the claim that no
object-store call is made before the error fails. -/
theorem validation_network_cex :
    isTypeError (send_email demoEnv argsBadTo).outcome = true ∧
    (send_email demoEnv argsBadTo).trace = [ExtCall.acquireBucket] ∧
    (send_email demoEnv argsBadTo).trace ≠ ([] : List ExtCall) :=
  ⟨by decide, by decide, by decide⟩

/-- C2 witness: the amended frame theorem instantiated at a concrete
malformed call. -/
theorem send_email_validation_failure_frame_witness :
    demoEnv.aws_access_key_id ≠ "" ∧ demoEnv.aws_secret_access_key ≠ "" ∧
    recipientsInvalid argsBadTo = true ∧
    ((send_email demoEnv argsBadTo).trace = [ExtCall.acquireBucket] ∧
     isTypeError (send_email demoEnv argsBadTo).outcome = true ∧
     (send_email demoEnv argsBadTo).bucket = demoEnv.bucket0 ∧
     (send_email demoEnv argsBadTo).published = Option.none) :=
  ⟨by decide, by decide, by decide,
   send_email_validation_failure_frame demoEnv argsBadTo (by decide) (by decide) (by decide)⟩

/-- C3: with credentials configured, when all four recipient fields are
falsy after normalization, `send_email` raises the all-empty validation
`TypeError`. -/
theorem send_email_all_empty_raises (env : Env) (a : SendEmailArgs)
    (h1 : env.aws_access_key_id ≠ "") (h2 : env.aws_secret_access_key ≠ "")
    (hto : pyTruthy (normalizeRecipient a.«to») = false)
    (hcc : pyTruthy (normalizeRecipient a.cc) = false)
    (hbcc : pyTruthy (normalizeRecipient a.bcc) = false)
    (hrt : pyTruthy (normalizeRecipient a.reply_to) = false) :
    (send_email env a).outcome = Except.error SendError.typeErrorAllEmpty := by
  unfold send_email
  simp [beq_eq_false_iff_ne.mpr h1, beq_eq_false_iff_ne.mpr h2,
        anyBadRecipient, badRecipient, allRecipientsFalsy, hto, hcc, hbcc, hrt]

/-- C3 witness: the all-defaults call raises the all-empty error. -/
theorem send_email_all_empty_raises_witness :
    demoEnv.aws_access_key_id ≠ "" ∧ demoEnv.aws_secret_access_key ≠ "" ∧
    pyTruthy (normalizeRecipient baseArgs.«to») = false ∧
    (send_email demoEnv baseArgs).outcome = Except.error SendError.typeErrorAllEmpty :=
  ⟨by decide, by decide, by decide,
   send_email_all_empty_raises demoEnv baseArgs (by decide) (by decide) (by decide) (by decide)
     (by decide) (by decide)⟩

/-- C4: a string recipient field is normalized by splitting on commas
(the sample pair of addresses splits into the two-element list; in general
the split is the unique comma cut: joining the parts with commas restores
the string and no part contains a comma), and with credentials configured a
truthy recipient field that is neither a string nor a list makes
`send_email` raise the list-type `TypeError`. -/
theorem send_email_recipient_normalization :
    (normalizeRecipient (PyVal.str "a@x.com,b@x.com") = PyVal.list ["a@x.com", "b@x.com"]) ∧
    (∀ s, normalizeRecipient (PyVal.str s) = PyVal.list (pySplit s ',')) ∧
    (∀ s : String, joinChars ',' ((pySplit s ',').map String.data) = s.data ∧
      ∀ part ∈ pySplit s ',', ',' ∉ part.data) ∧
    (∀ env a, env.aws_access_key_id ≠ "" → env.aws_secret_access_key ≠ "" →
      anyBadRecipient (normalizeRecipient a.«to») (normalizeRecipient a.cc)
          (normalizeRecipient a.bcc) (normalizeRecipient a.reply_to) = true →
      (send_email env a).outcome = Except.error SendError.typeErrorNotList) := by
  refine ⟨by decide, fun s => rfl, fun s => ⟨?_, ?_⟩, ?_⟩
  · have hmaps : ((pySplitAux ',' s.data).map String.mk).map String.data =
        pySplitAux ',' s.data := by
      rw [List.map_map]
      exact List.map_id _
    rw [pySplit, hmaps, joinChars_pySplitAux]
  · intro part hpart
    rw [pySplit] at hpart
    rcases List.mem_map.mp hpart with ⟨g, hg, hmk⟩
    subst hmk
    exact pySplitAux_no_sep ',' s.data g hg
  · intro env a h1 h2 hbad
    unfold send_email
    simp [beq_eq_false_iff_ne.mpr h1, beq_eq_false_iff_ne.mpr h2, hbad]

/-- C4 witness: the rejection branch instantiated at a concrete call whose
first recipient field is a truthy non-string non-list object. -/
theorem send_email_recipient_normalization_witness :
    demoEnv.aws_access_key_id ≠ "" ∧ demoEnv.aws_secret_access_key ≠ "" ∧
    anyBadRecipient (normalizeRecipient argsBadTo.«to») (normalizeRecipient argsBadTo.cc)
        (normalizeRecipient argsBadTo.bcc) (normalizeRecipient argsBadTo.reply_to) = true ∧
    (send_email demoEnv argsBadTo).outcome = Except.error SendError.typeErrorNotList :=
  ⟨by decide, by decide, by decide,
   send_email_recipient_normalization.2.2.2 demoEnv argsBadTo (by decide) (by decide)
     (by decide)⟩

/-- C5: `generate_s3_content_key` composes folder, slash and content type,
appends an underscore and the content name exactly when the name is
non-empty, and in particular the html key ends in the slash-html suffix and
the attachment key for a file named f.png ends in the
slash-attachment-underscore-f.png suffix, for every folder name. -/
theorem generate_s3_content_key_spec :
    (∀ folder ctype, generate_s3_content_key folder ctype "" = folder ++ "/" ++ ctype) ∧
    (∀ folder ctype cname, cname ≠ "" →
      generate_s3_content_key folder ctype cname = folder ++ "/" ++ ctype ++ "_" ++ cname) ∧
    (∀ folder, ∃ p, generate_s3_content_key folder "html" "" = p ++ "/html") ∧
    (∀ folder, ∃ p,
      generate_s3_content_key folder "attachment" "f.png" = p ++ "/attachment_f.png") := by
  refine ⟨fun folder ctype => rfl, fun folder ctype cname h => ?_,
          fun folder => ⟨folder, ?_⟩, fun folder => ⟨folder, ?_⟩⟩
  · simp [generate_s3_content_key, h]
  · show folder ++ "/" ++ "html" = folder ++ "/html"
    rw [String.append_assoc, show ("/" ++ "html" : String) = "/html" from by decide]
  · show folder ++ "/" ++ "attachment" ++ "_" ++ "f.png" = folder ++ "/attachment_f.png"
    simp only [String.append_assoc]
    rw [show ("/" ++ ("attachment" ++ ("_" ++ "f.png")) : String) = "/attachment_f.png"
      from by decide]

/-- C5 witness: the non-empty-name branch at a concrete folder and name. -/
theorem generate_s3_content_key_spec_witness :
    ("f.png" : String) ≠ "" ∧
    generate_s3_content_key "2026-10-12/1760227200_u" "attachment" "f.png" =
      "2026-10-12/1760227200_u" ++ "/" ++ "attachment" ++ "_" ++ "f.png" :=
  ⟨by decide,
   generate_s3_content_key_spec.2.1 "2026-10-12/1760227200_u" "attachment" "f.png" (by decide)⟩

/-- C6: uploading a non-empty string stores exactly that content,
retrievable under the given key, and performs exactly one store write;
uploading falsy content returns the bucket unchanged and makes no call. -/
theorem upload_string_to_s3_spec :
    (∀ bucket content_key content, content ≠ "" →
      s3_get (upload_string_to_s3 bucket content_key content).1 content_key =
        Option.some content ∧
      (upload_string_to_s3 bucket content_key content).2 =
        [ExtCall.uploadString content_key content]) ∧
    (∀ bucket content_key, upload_string_to_s3 bucket content_key "" = (bucket, [])) := by
  constructor
  · intro bucket content_key content h
    simp [upload_string_to_s3, s3_get, h, List.lookup]
  · intro bucket content_key
    rfl

/-- C6 witness: a concrete write into the empty bucket. -/
theorem upload_string_to_s3_spec_witness :
    ("HELLO" : String) ≠ "" ∧
    (s3_get (upload_string_to_s3 [] "k" "HELLO").1 "k" = Option.some "HELLO" ∧
     (upload_string_to_s3 [] "k" "HELLO").2 = [ExtCall.uploadString "k" "HELLO"]) :=
  ⟨by decide, upload_string_to_s3_spec.1 [] "k" "HELLO" (by decide)⟩

/-- C7: the publisher returns the broker acknowledgment exactly when it is
truthy and raises `EmitEventException` exactly when it is falsy. -/
theorem emit_microservice_event_ack_iff (task_id : String) (ack : Bool) (event_type : String)
    (args : List Json) (kwargs : List (String × Json)) :
    ((emit_microservice_event task_id ack event_type args kwargs).2 = Except.ok ack ↔
      ack = true) ∧
    ((emit_microservice_event task_id ack event_type args kwargs).2 =
        Except.error SendError.emitEvent ↔ ack = false) := by
  cases ack <;> simp [emit_microservice_event]

/-- C1 (amended): parsing the envelope gives `kwargs.task_id` equal to the
top-level `id` for events whose caller passes no `task_id` keyword
argument; `send_email`, however, passes its own email uuid as `task_id`,
which overrides the publisher-generated entry in `kwargs`, while the
top-level `id` stays the fresh uuid generated inside
`emit_microservice_event` — so for its events the two fields hold the two
distinct uuids. -/
theorem task_id_roundtrip_amended :
    (∀ task_id ack event_type (args : List Json) (kwargs : List (String × Json)),
      kwargs.lookup "task_id" = Option.none →
      envelopeTaskIdStr (emit_microservice_event task_id ack event_type args kwargs).1 =
        envelopeIdStr (emit_microservice_event task_id ack event_type args kwargs).1) ∧
    (∀ env a, env.aws_access_key_id ≠ "" → env.aws_secret_access_key ≠ "" →
      recipientsInvalid a = false →
      publishedTaskId (send_email env a) = Option.some env.email_uuid ∧
      publishedId (send_email env a) = Option.some env.emit_task_id) := by
  constructor
  · intro task_id ack event_type args kwargs h
    simp [emit_microservice_event, envelopeTaskIdStr, envelopeIdStr, jlookup,
          List.lookup, List.lookup_append, h, jstrVal]
  · intro env a h1 h2 hv
    rw [send_email_eq_body env a h1 h2 hv]
    constructor <;>
      simp [send_email_body, publishedTaskId, publishedId, envelopeTaskIdStr, envelopeIdStr,
            emit_microservice_event, jlookup, List.lookup, jstrVal]

/-- C1 (counterexample): a concrete `send_email` call whose published
envelope has `kwargs.task_id` equal to the uuid drawn in `send_email` and
`id` equal to the distinct uuid drawn in the publisher, so the parsed
`kwargs.task_id` differs from `id`. -/
theorem task_id_roundtrip_cex :
    publishedTaskId (send_email demoEnv argsTo) =
      Option.some "11111111-1111-1111-1111-111111111111" ∧
    publishedId (send_email demoEnv argsTo) =
      Option.some "22222222-2222-2222-2222-222222222222" ∧
    publishedTaskId (send_email demoEnv argsTo) ≠ publishedId (send_email demoEnv argsTo) :=
  ⟨by decide, by decide, by decide⟩

/-- C1 witness: the amended theorem instantiated at a caller without a
`task_id` keyword and at a concrete `send_email` call. -/
theorem task_id_roundtrip_amended_witness :
    (envelopeTaskIdStr (emit_microservice_event "t-0" true "evt" [] []).1 =
      envelopeIdStr (emit_microservice_event "t-0" true "evt" [] []).1) ∧
    (publishedTaskId (send_email demoEnv argsTo) = Option.some demoEnv.email_uuid ∧
     publishedId (send_email demoEnv argsTo) = Option.some demoEnv.emit_task_id) :=
  ⟨task_id_roundtrip_amended.1 "t-0" true "evt" [] [] rfl,
   task_id_roundtrip_amended.2 demoEnv argsTo (by decide) (by decide) (by decide)⟩

/-- C8: a valid `send_email` call publishes, under
`kwargs.attachments_keys`, one key per attachment in order — all
content-attachment keys (scoped to the filename in each tuple) before all
file-path keys (scoped to the final path component). -/
theorem send_email_attachments_keys_ordered (env : Env) (a : SendEmailArgs)
    (h1 : env.aws_access_key_id ≠ "") (h2 : env.aws_secret_access_key ≠ "")
    (hv : recipientsInvalid a = false) :
    publishedAttachmentsKeys (send_email env a) =
      Option.some (Json.jarr
        (((a.attachments.map (fun t => generate_s3_content_key
              (generate_s3_folder_name env.today env.now env.email_uuid) "attachment" t.1)) ++
          (a.files.map (fun p => generate_s3_content_key
              (generate_s3_folder_name env.today env.now env.email_uuid) "attachment"
              ((pySplit p '/').getLastD "")))).map Json.jstr)) := by
  rw [send_email_eq_body env a h1 h2 hv]
  exact send_email_body_attachments_keys env a _ _ _ _

/-- C8 witness: the ordered-keys theorem at a concrete call with two
content attachments and one file path. -/
theorem send_email_attachments_keys_ordered_witness :
    demoEnv.aws_access_key_id ≠ "" ∧ demoEnv.aws_secret_access_key ≠ "" ∧
    recipientsInvalid argsAttach = false ∧
    publishedAttachmentsKeys (send_email demoEnv argsAttach) =
      Option.some (Json.jarr
        (((argsAttach.attachments.map (fun t => generate_s3_content_key
              (generate_s3_folder_name demoEnv.today demoEnv.now demoEnv.email_uuid)
              "attachment" t.1)) ++
          (argsAttach.files.map (fun p => generate_s3_content_key
              (generate_s3_folder_name demoEnv.today demoEnv.now demoEnv.email_uuid) "attachment"
              ((pySplit p '/').getLastD "")))).map Json.jstr)) :=
  ⟨by decide, by decide, by decide,
   send_email_attachments_keys_ordered demoEnv argsAttach (by decide) (by decide) (by decide)⟩

/-- C9: a call whose only recipient field is the empty string normalizes it
into the one-element list holding the empty string, so the all-empty
validation error is not raised and the send proceeds all the way to a
publish. -/
theorem send_email_empty_string_recipient (env : Env)
    (h1 : env.aws_access_key_id ≠ "") (h2 : env.aws_secret_access_key ≠ "") :
    normalizeRecipient (PyVal.str "") = PyVal.list [""] ∧
    isTypeError (send_email env { baseArgs with «to» := PyVal.str "" }).outcome = false ∧
    (send_email env { baseArgs with «to» := PyVal.str "" }).published.isSome = true := by
  refine ⟨by decide, ?_, ?_⟩
  · rw [send_email_eq_body env _ h1 h2 (by decide)]
    cases hack : env.ack <;>
      simp [send_email_body, emit_microservice_event, hack, isTypeError]
  · rw [send_email_eq_body env _ h1 h2 (by decide)]
    simp [send_email_body]

/-- C9 witness: the empty-string-recipient theorem at the concrete
environment. -/
theorem send_email_empty_string_recipient_witness :
    demoEnv.aws_access_key_id ≠ "" ∧ demoEnv.aws_secret_access_key ≠ "" ∧
    (normalizeRecipient (PyVal.str "") = PyVal.list [""] ∧
     isTypeError (send_email demoEnv { baseArgs with «to» := PyVal.str "" }).outcome = false ∧
     (send_email demoEnv { baseArgs with «to» := PyVal.str "" }).published.isSome = true) :=
  ⟨by decide, by decide, send_email_empty_string_recipient demoEnv (by decide) (by decide)⟩

/-- C10: a call with a single attachment whose content is falsy still
publishes an attachment key for it (scoped to its filename) in
`kwargs.attachments_keys`, while no object is ever written: the trace holds
only the bucket acquisition and the publish, and the bucket is unchanged —
the event references a key with no backing blob. -/
theorem send_email_falsy_attachment (env : Env) (fname mtype : String)
    (h1 : env.aws_access_key_id ≠ "") (h2 : env.aws_secret_access_key ≠ "") :
    (send_email env { baseArgs with «to» := PyVal.str "a@x.com", attachments := [(fname, mtype, "")] }).trace =
      [ExtCall.acquireBucket, ExtCall.publish] ∧
    (send_email env { baseArgs with «to» := PyVal.str "a@x.com", attachments := [(fname, mtype, "")] }).bucket = env.bucket0 ∧
    publishedAttachmentsKeys (send_email env { baseArgs with «to» := PyVal.str "a@x.com", attachments := [(fname, mtype, "")] }) =
      Option.some (Json.jarr [Json.jstr (generate_s3_content_key
        (generate_s3_folder_name env.today env.now env.email_uuid) "attachment" fname)]) := by
  have hv : recipientsInvalid { baseArgs with «to» := PyVal.str "a@x.com", attachments := [(fname, mtype, "")] } = false := rfl
  refine ⟨?_, ?_, ?_⟩
  · rw [send_email_eq_body env _ h1 h2 hv]
    simp [send_email_body, bodyUpload, attachStep, upload_string_to_s3, baseArgs]
  · rw [send_email_eq_body env _ h1 h2 hv]
    simp [send_email_body, bodyUpload, attachStep, upload_string_to_s3, baseArgs]
  · rw [send_email_eq_body env _ h1 h2 hv]
    simpa using send_email_body_attachments_keys env
      { baseArgs with «to» := PyVal.str "a@x.com", attachments := [(fname, mtype, "")] }
      (normalizeRecipient (PyVal.str "a@x.com")) (normalizeRecipient PyVal.none)
      (normalizeRecipient PyVal.none) (normalizeRecipient PyVal.none)

/-- C10 witness: the falsy-attachment theorem at a concrete filename and
content type. -/
theorem send_email_falsy_attachment_witness :
    demoEnv.aws_access_key_id ≠ "" ∧ demoEnv.aws_secret_access_key ≠ "" ∧
    ((send_email demoEnv { baseArgs with «to» := PyVal.str "a@x.com", attachments := [("ghost.txt", "text/plain", "")] }).trace =
       [ExtCall.acquireBucket, ExtCall.publish] ∧
     (send_email demoEnv { baseArgs with «to» := PyVal.str "a@x.com", attachments := [("ghost.txt", "text/plain", "")] }).bucket =
       demoEnv.bucket0 ∧
     publishedAttachmentsKeys (send_email demoEnv { baseArgs with «to» := PyVal.str "a@x.com", attachments := [("ghost.txt", "text/plain", "")] }) =
       Option.some (Json.jarr [Json.jstr (generate_s3_content_key
         (generate_s3_folder_name demoEnv.today demoEnv.now demoEnv.email_uuid)
         "attachment" "ghost.txt")])) :=
  ⟨by decide, by decide,
   send_email_falsy_attachment demoEnv "ghost.txt" "text/plain" (by decide) (by decide)⟩
